import Mathlib

/-!
# Verification of `txwrap` (sawka/txwrap, `src/txwrap.go`)

A shallow embedding of the Go package `txwrap`, a wrapper around an SQL
transaction handle that latches the first error and guarantees a single
commit-or-rollback per logical transaction.

Modelling conventions:

* Go `error` values are embedded as `Option DBError` (`none` = nil).
  `DBError.errNoRows` is the distinguished sentinel `sql.ErrNoRows`;
  `DBError.fmtError msg` stands for the fresh errors this package creates with
  `fmt.Errorf` (distinct from every driver error); `DBError.driverError code`
  covers all opaque driver/user errors.
* The Go struct `TxWrap` carries `Txx *sqlx.Tx`, `Err error` and `ctx`.
  Only `Err` is data the package branches on; the raw handle `Txx` is the
  channel through which driver responses arrive, so each facade operation
  takes its driver response as an explicit argument, and the `ctx` field
  (used only to derive the child context and to pass cancellation down to the
  driver) is modelled by the explicit `Ctx` parameter of `DBGWithTx`.
* A Go `context.Context` is modelled by the one piece of information the
  package ever reads from it: the value stored under the private `txWrapKey`,
  i.e. `Ctx := Option TxWrap`.  `TxWrap.Context` installs the wrapper
  (Go: `context.WithValue(tx.ctx, txWrapKey{}, tx)`).
* Pointer mutation of the shared `*TxWrap` is made explicit: every operation
  returns the updated wrapper state, and `DBGWithTx` returns the updated
  ambient wrapper (when one was found) so a nested call's mutations are
  visible to the enclosing call.
* Calls into the SQL driver are recorded in a trace (`List DBCall`), so that
  "BeginTxx happens exactly once" is a statement about `List.count`.
  Statement-level calls made by the facade operations are recorded as
  `DBCall.stmt`.
* A Go panic is a distinguished outcome: the user callback either returns
  normally or panics with a value of an arbitrary type `P`, and `DBGWithTx`
  either returns an error (`TxResult.ret`) or re-propagates the panic
  (`TxResult.panic`).
-/

namespace Txwrap

/-- Go `error` values as compared by the package (`==` on interface values). -/
inductive DBError where
  /-- the sentinel `sql.ErrNoRows` -/
  | errNoRows : DBError
  /-- a fresh error built by `fmt.Errorf` inside txwrap, identified by message -/
  | fmtError (msg : String) : DBError
  /-- an opaque error produced by the driver or by user code -/
  | driverError (code : Nat) : DBError
deriving DecidableEq, Repr

/-- One call into the underlying SQL driver, as observed in a trace. -/
inductive DBCall where
  | getDB : DBCall
  | releaseDB : DBCall
  | beginTxx : DBCall
  | commit : DBCall
  | rollback : DBCall
  /-- any statement-level call (`ExecContext`, `GetContext`, `QueryxContext`, ...) -/
  | stmt : DBCall
deriving DecidableEq, Repr

/-- Behaviour of a `*sqlx.DB` handle: the result of `BeginTxx` on it and, when
begin succeeds, the result of `Commit` on the transaction it opened. -/
structure DB where
  beginRes : Option DBError
  commitRes : Option DBError
deriving DecidableEq, Repr

/-- The `DBGetter` interface: `GetDB` returns a `(db, err)` pair exactly as in
Go (`ReleaseDB` is a pure notification and is recorded in the trace). -/
structure DBGetter where
  getDBRes : Option DB × Option DBError
deriving DecidableEq, Repr

/-- The central `TxWrap` struct.  See the module docstring for why only the
`Err` field is carried as data. -/
structure TxWrap where
  Err : Option DBError
deriving DecidableEq, Repr

/-- A Go `context.Context`, modelled by its `txWrapKey` binding — the only
key this package ever consults. -/
abbrev Ctx := Option TxWrap

/-- `IsTxWrapContext`: `ctx.Value(txWrapKey{}) != nil`. -/
def IsTxWrapContext (ctx : Ctx) : Bool :=
  ctx.isSome

/-- `(tx *TxWrap) Context()`: `context.WithValue(tx.ctx, txWrapKey{}, tx)`. -/
def TxWrap.Context (tx : TxWrap) : Ctx :=
  some tx

/-- `SimpleDBGetter`: `GetDB` hands back the wrapped `*sqlx.DB` with a nil
error; `ReleaseDB` is a no-op. -/
def SimpleDBGetter (db : DB) : DBGetter :=
  { getDBRes := (some db, none) }

/-- Outcome of the user callback `fn : func(tx *TxWrap) error`: it may mutate
the wrapper (the returned `TxWrap`), issue driver calls (the trace), and then
either return an error value or panic with a value of type `P`. -/
inductive FnOut (P : Type) where
  | ret (tx : TxWrap) (fnErr : Option DBError) (calls : List DBCall) : FnOut P
  | panics (tx : TxWrap) (p : P) (calls : List DBCall) : FnOut P
deriving DecidableEq

/-- The driver calls a callback outcome carries. -/
def FnOut.calls {P : Type} : FnOut P → List DBCall
  | .ret _ _ c => c
  | .panics _ _ c => c

/-- The wrapper state a callback outcome carries. -/
def FnOut.wrap {P : Type} : FnOut P → TxWrap
  | .ret tx _ _ => tx
  | .panics tx _ _ => tx

/-- Result of a `DBGWithTx`/`WithTx` call: a normal return value (the Go
`rtnErr`), or a re-propagated panic. -/
inductive TxResult (P : Type) where
  | ret (rtnErr : Option DBError) : TxResult P
  | panic (p : P) : TxResult P
deriving DecidableEq

/-- `DBGWithTx(ctx, dbWrap, fn)` from `src/txwrap.go:78-121`, transcribed
clause by clause.

Result: `(updated ambient wrapper, result, driver-call trace)`.  The first
component is the post-state of the wrapper found in `ctx` (pointer mutation
made explicit); it is `none` exactly when `ctx` carried no wrapper.

Go control flow notes reflected here:
* ambient path (`ctxVal != nil`): latched error returns immediately;
  otherwise `fn` runs, its returned error is latched only if `Err` is still
  nil, and no deferred block exists — a panic simply propagates;
* owning path (`txWrap == nil`): `GetDB` error and nil-`db` return before
  `defer ReleaseDB`, a `BeginTxx` error returns after it; the deferred
  closure recovers a panic, rolls back and re-panics with the same value, and
  otherwise rolls back on a non-nil `rtnErr` or replaces `rtnErr` by the
  result of `Commit`.  Deferred calls run LIFO, so `ReleaseDB` follows
  `Rollback`/`Commit` in the trace. -/
def DBGWithTx {P : Type} (ctx : Ctx) (dbWrap : DBGetter) (fn : TxWrap → FnOut P) :
    Ctx × TxResult P × List DBCall :=
  match ctx with
  | some txWrap =>
    if txWrap.Err.isSome then
      (some txWrap, .ret txWrap.Err, [])
    else
      match fn txWrap with
      | .panics tx' p calls => (some tx', .panic p, calls)
      | .ret tx' fnErr calls =>
        let tx2 := if tx'.Err = none ∧ fnErr ≠ none then { tx' with Err := fnErr } else tx'
        (some tx2, .ret tx2.Err, calls)
  | none =>
    match dbWrap.getDBRes with
    | (_, some getDBErr) => (none, .ret (some getDBErr), [.getDB])
    | (none, none) =>
      (none, .ret (some (.fmtError "GetDB returned nil DB")), [.getDB])
    | (some db, none) =>
      match db.beginRes with
      | some beginErr => (none, .ret (some beginErr), [.getDB, .beginTxx, .releaseDB])
      | none =>
        match fn { Err := none } with
        | .panics _ p calls =>
          (none, .panic p, [.getDB, .beginTxx] ++ calls ++ [.rollback, .releaseDB])
        | .ret tx' fnErr calls =>
          let tx2 := if tx'.Err = none ∧ fnErr ≠ none then { tx' with Err := fnErr } else tx'
          match tx2.Err with
          | some e =>
            (none, .ret (some e), [.getDB, .beginTxx] ++ calls ++ [.rollback, .releaseDB])
          | none =>
            (none, .ret db.commitRes, [.getDB, .beginTxx] ++ calls ++ [.commit, .releaseDB])

/-- `WithTx(ctx, db, fn)` from `src/txwrap.go:62-68`: rejects a nil `db`,
otherwise delegates to `DBGWithTx` with the `SimpleDBGetter` wrapping. -/
def WithTx {P : Type} (ctx : Ctx) (db : Option DB) (fn : TxWrap → FnOut P) :
    Ctx × TxResult P × List DBCall :=
  match db with
  | none => (ctx, .ret (some (.fmtError "invalid nil DB passed to WithTx")), [])
  | some dbv => DBGWithTx ctx (SimpleDBGetter dbv) fn

/-! ## Error-latching operation facade

Each method of `TxWrap` takes the response of its one underlying driver call
as an explicit argument (the response is only consumed when the call is
actually made) and returns, along with its Go return value, the updated
wrapper state and the list of driver calls performed (`[]` or `[.stmt]`). -/

/-- Values scanned out of the database (Go `interface{}` destinations). -/
abbrev Val := String

/-- A row materialized as a column-name/value mapping (`map[string]interface{}`). -/
abbrev RowMap := List (String × Val)

/-- A `sql.Result`: last-insert id and rows affected. -/
structure SqlResult where
  lastInsertId : Int
  rowsAffected : Int
deriving DecidableEq, Repr

/-- `NamedExec` (`src/txwrap.go:129-138`): short-circuits on a latched error;
otherwise issues the statement, latches a non-nil error, and returns the
driver's result object either way. -/
def TxWrap.NamedExec (tx : TxWrap) (resp : Option SqlResult × Option DBError) :
    Option SqlResult × TxWrap × List DBCall :=
  if tx.Err.isSome then
    (none, tx, [])
  else
    match resp.2 with
    | some e => (resp.1, { tx with Err := some e }, [.stmt])
    | none => (resp.1, tx, [.stmt])

/-- `Exec` (`src/txwrap.go:140-149`): same shape as `NamedExec`. -/
def TxWrap.Exec (tx : TxWrap) (resp : Option SqlResult × Option DBError) :
    Option SqlResult × TxWrap × List DBCall :=
  if tx.Err.isSome then
    (none, tx, [])
  else
    match resp.2 with
    | some e => (resp.1, { tx with Err := some e }, [.stmt])
    | none => (resp.1, tx, [.stmt])

/-- `Get` (`src/txwrap.go:184-197`).  `dest` is the destination before the
call; the driver response is either an error (possibly `sql.ErrNoRows`) or
the scanned value.  Returns `(found, dest after the call, wrapper, calls)`:
`sql.ErrNoRows` yields `false` without latching, any other error latches. -/
def TxWrap.Get {α : Type} (dest : α) (tx : TxWrap) (resp : Except DBError α) :
    Bool × α × TxWrap × List DBCall :=
  if tx.Err.isSome then
    (false, dest, tx, [])
  else
    match resp with
    | .error e =>
      if e = .errNoRows then (false, dest, tx, [.stmt])
      else (false, dest, { tx with Err := some e }, [.stmt])
    | .ok v => (true, v, tx, [.stmt])

/-- `Exists` (`src/txwrap.go:153-156`): `Get` into a throwaway destination,
returning only the found flag. -/
def TxWrap.Exists (tx : TxWrap) (resp : Except DBError Val) :
    Bool × TxWrap × List DBCall :=
  match TxWrap.Get "" tx resp with
  | (found, _, tx', calls) => (found, tx', calls)

/-- `GetString` (`src/txwrap.go:158-162`): `Get` into a zero-initialized
string, returned regardless of the found flag. -/
def TxWrap.GetString (tx : TxWrap) (resp : Except DBError String) :
    String × TxWrap × List DBCall :=
  match TxWrap.Get "" tx resp with
  | (_, v, tx', calls) => (v, tx', calls)

/-- `GetBool` (`src/txwrap.go:164-168`). -/
def TxWrap.GetBool (tx : TxWrap) (resp : Except DBError Bool) :
    Bool × TxWrap × List DBCall :=
  match TxWrap.Get false tx resp with
  | (_, v, tx', calls) => (v, tx', calls)

/-- `GetInt` (`src/txwrap.go:176-180`). -/
def TxWrap.GetInt (tx : TxWrap) (resp : Except DBError Int) :
    Int × TxWrap × List DBCall :=
  match TxWrap.Get 0 tx resp with
  | (_, v, tx', calls) => (v, tx', calls)

/-- `Select` (`src/txwrap.go:199-208`).  A Go slice is `Option (List α)`
(`none` = nil slice); on a latched error or a driver error the destination is
left untouched, on success it holds the fetched rows. -/
def TxWrap.Select {α : Type} (dest : Option (List α)) (tx : TxWrap)
    (resp : Except DBError (List α)) :
    Option (List α) × TxWrap × List DBCall :=
  if tx.Err.isSome then
    (dest, tx, [])
  else
    match resp with
    | .error e => (dest, { tx with Err := some e }, [.stmt])
    | .ok rows => (some rows, tx, [.stmt])

/-- `SelectStrings` (`src/txwrap.go:170-174`): `Select` into a nil slice. -/
def TxWrap.SelectStrings (tx : TxWrap) (resp : Except DBError (List String)) :
    Option (List String) × TxWrap × List DBCall :=
  match TxWrap.Select none tx resp with
  | (arr, tx', calls) => (arr, tx', calls)

/-- Go `append(rtn, m)` on an `Option`-modelled slice: appending to a nil
slice allocates a fresh non-nil slice. -/
def goAppend (rtn : Option (List RowMap)) (m : RowMap) : Option (List RowMap) :=
  some (rtn.getD [] ++ [m])

/-- The `for rows.Next()` loop of `SelectMaps` (`src/txwrap.go:220-228`):
each element of `rows` is the `MapScan` outcome of one row; a scan error
latches and returns nil, discarding the accumulator. -/
def selectMapsLoop (tx : TxWrap) (rtn : Option (List RowMap)) :
    List (Except DBError RowMap) → Option (List RowMap) × TxWrap
  | [] => (rtn, tx)
  | .error e :: _ => (none, { tx with Err := some e })
  | .ok m :: rest => selectMapsLoop tx (goAppend rtn m) rest

/-- `SelectMaps` (`src/txwrap.go:210-230`): the driver response is either a
query error or the list of rows (each row carrying its `MapScan` outcome). -/
def TxWrap.SelectMaps (tx : TxWrap) (resp : Except DBError (List (Except DBError RowMap))) :
    Option (List RowMap) × TxWrap × List DBCall :=
  if tx.Err.isSome then
    (none, tx, [])
  else
    match resp with
    | .error e => (none, { tx with Err := some e }, [.stmt])
    | .ok rows =>
      match selectMapsLoop tx none rows with
      | (rtn, tx') => (rtn, tx', [.stmt])

/-- `GetMap` (`src/txwrap.go:232-247`): single-row variant; `sql.ErrNoRows`
from `MapScan` returns nil without latching. -/
def TxWrap.GetMap (tx : TxWrap) (resp : Except DBError RowMap) :
    Option RowMap × TxWrap × List DBCall :=
  if tx.Err.isSome then
    (none, tx, [])
  else
    match resp with
    | .error e =>
      if e = .errNoRows then (none, tx, [.stmt])
      else (none, { tx with Err := some e }, [.stmt])
    | .ok m => (m, tx, [.stmt])

/-- `Run` (`src/txwrap.go:250-259`): invokes the caller-supplied function only
when no error is latched.  The function's behaviour is its returned error and
the driver calls it would make; when short-circuited it is not invoked, so no
calls appear. -/
def TxWrap.Run (tx : TxWrap) (fn : Option DBError × List DBCall) :
    TxWrap × List DBCall :=
  if tx.Err.isSome then
    (tx, [])
  else
    match fn.1 with
    | some e => ({ tx with Err := some e }, fn.2)
    | none => (tx, fn.2)

/-- Modelled from the spec: the source file under `src/` contains no
`SetError` method; the spec (§4.2, §6) specifies "**SetError(err)** — latches
`err` only if nothing is latched yet (first-write-wins)". -/
def TxWrap.SetError (tx : TxWrap) (err : Option DBError) : TxWrap :=
  if tx.Err.isSome then tx else { tx with Err := err }

/-! ## One step of the facade, for quantifying over call sequences

`FacadeOp` packages one facade call together with its driver response (generic
destinations are instantiated at `Val`/`String`); `runOp` dispatches to the
definitions above and `runOps` chains a whole sequence of calls. -/

instance {ε α : Type} [DecidableEq ε] [DecidableEq α] : DecidableEq (Except ε α) := fun a b =>
  match a, b with
  | .error e, .error e' =>
    if h : e = e' then .isTrue (h ▸ rfl) else .isFalse (fun hh => h (Except.error.inj hh))
  | .error _, .ok _ => .isFalse (fun h => Except.noConfusion h)
  | .ok _, .error _ => .isFalse (fun h => Except.noConfusion h)
  | .ok v, .ok v' =>
    if h : v = v' then .isTrue (h ▸ rfl) else .isFalse (fun hh => h (Except.ok.inj hh))

/-- One facade call with its driver response. -/
inductive FacadeOp where
  | namedExec (resp : Option SqlResult × Option DBError) : FacadeOp
  | exec (resp : Option SqlResult × Option DBError) : FacadeOp
  | existsQ (resp : Except DBError Val) : FacadeOp
  | getString (resp : Except DBError String) : FacadeOp
  | getBool (resp : Except DBError Bool) : FacadeOp
  | getInt (resp : Except DBError Int) : FacadeOp
  | selectStrings (resp : Except DBError (List String)) : FacadeOp
  | get (dest : Val) (resp : Except DBError Val) : FacadeOp
  | select (dest : Option (List Val)) (resp : Except DBError (List Val)) : FacadeOp
  | selectMaps (resp : Except DBError (List (Except DBError RowMap))) : FacadeOp
  | getMap (resp : Except DBError RowMap) : FacadeOp
  | run (fn : Option DBError × List DBCall) : FacadeOp
deriving DecidableEq

/-- The Go return value of one facade call. -/
inductive OpOut where
  | execOut (r : Option SqlResult) : OpOut
  | boolOut (b : Bool) : OpOut
  | strOut (s : String) : OpOut
  | intOut (n : Int) : OpOut
  | strsOut (l : Option (List String)) : OpOut
  | mapsOut (l : Option (List RowMap)) : OpOut
  | mapOut (m : Option RowMap) : OpOut
  | unitOut : OpOut
deriving DecidableEq

/-- Perform one facade call on a wrapper. -/
def runOp (tx : TxWrap) : FacadeOp → OpOut × TxWrap × List DBCall
  | .namedExec resp =>
    match TxWrap.NamedExec tx resp with
    | (r, tx', calls) => (.execOut r, tx', calls)
  | .exec resp =>
    match TxWrap.Exec tx resp with
    | (r, tx', calls) => (.execOut r, tx', calls)
  | .existsQ resp =>
    match TxWrap.Exists tx resp with
    | (b, tx', calls) => (.boolOut b, tx', calls)
  | .getString resp =>
    match TxWrap.GetString tx resp with
    | (s, tx', calls) => (.strOut s, tx', calls)
  | .getBool resp =>
    match TxWrap.GetBool tx resp with
    | (b, tx', calls) => (.boolOut b, tx', calls)
  | .getInt resp =>
    match TxWrap.GetInt tx resp with
    | (n, tx', calls) => (.intOut n, tx', calls)
  | .selectStrings resp =>
    match TxWrap.SelectStrings tx resp with
    | (l, tx', calls) => (.strsOut l, tx', calls)
  | .get dest resp =>
    match TxWrap.Get dest tx resp with
    | (found, _, tx', calls) => (.boolOut found, tx', calls)
  | .select dest resp =>
    match TxWrap.Select dest tx resp with
    | (l, tx', calls) => (.strsOut l, tx', calls)
  | .selectMaps resp =>
    match TxWrap.SelectMaps tx resp with
    | (l, tx', calls) => (.mapsOut l, tx', calls)
  | .getMap resp =>
    match TxWrap.GetMap tx resp with
    | (m, tx', calls) => (.mapOut m, tx', calls)
  | .run fn =>
    match TxWrap.Run tx fn with
    | (tx', calls) => (.unitOut, tx', calls)

/-- Perform a sequence of facade calls, collecting the driver-call trace. -/
def runOps (tx : TxWrap) : List FacadeOp → TxWrap × List DBCall
  | [] => (tx, [])
  | op :: rest =>
    match runOp tx op with
    | (_, tx', calls) =>
      match runOps tx' rest with
      | (txf, calls') => (txf, calls ++ calls')

/-- The zero/empty Go return value of each facade call: nil result, `false`,
empty string, zero integer, nil slice, nil map, or nothing.  For `Select` the
destination is left untouched. -/
def FacadeOp.zeroOut : FacadeOp → OpOut
  | .namedExec _ => .execOut none
  | .exec _ => .execOut none
  | .existsQ _ => .boolOut false
  | .getString _ => .strOut ""
  | .getBool _ => .boolOut false
  | .getInt _ => .intOut 0
  | .selectStrings _ => .strsOut none
  | .get _ _ => .boolOut false
  | .select dest _ => .strsOut dest
  | .selectMaps _ => .mapsOut none
  | .getMap _ => .mapOut none
  | .run _ => .unitOut

/-! ## Nested calls

A Go callback whose body is `return DBGWithTx(tx.Context(), dbg, inner)`
observes the nested call through three channels: the mutations to the shared
wrapper (the updated ambient wrapper), the returned error, and a propagating
panic.  `asFnOut` packages a `DBGWithTx` result back into a callback outcome
accordingly, and `nestFn` iterates this to arbitrary depth. -/

/-- Repackage a nested `DBGWithTx` result as the enclosing callback's outcome:
the callback returns the nested call's error (or re-raises its panic) and the
shared wrapper carries the nested call's mutations.  When the nested call had
no ambient wrapper (impossible for a call made on `tx.Context()`), the
enclosing wrapper `tx` is untouched. -/
def asFnOut {P : Type} (tx : TxWrap) : Ctx × TxResult P × List DBCall → FnOut P
  | (some tx', .ret e, calls) => .ret tx' e calls
  | (some tx', .panic p, calls) => .panics tx' p calls
  | (none, .ret e, calls) => .ret tx e calls
  | (none, .panic p, calls) => .panics tx p calls

/-- Depth-`n` nesting: `nestFn dbg 0 leaf = leaf`, and at depth `n + 1` the
callback immediately calls `DBGWithTx` on the wrapper's own derived context
(`tx.Context()`) with the depth-`n` callback inside. -/
def nestFn {P : Type} (dbg : DBGetter) : Nat → (TxWrap → FnOut P) → TxWrap → FnOut P
  | 0, leaf => leaf
  | n + 1, leaf => fun tx => asFnOut tx (DBGWithTx tx.Context dbg (nestFn dbg n leaf))

/-- A trace free of transaction-lifecycle calls: no `BeginTxx`, no `Commit`,
no `Rollback` (statement-level calls and foreign acquire/release are fine). -/
def lifecycleFree (l : List DBCall) : Prop :=
  l.count .beginTxx = 0 ∧ l.count .commit = 0 ∧ l.count .rollback = 0

instance (l : List DBCall) : Decidable (lifecycleFree l) := by
  unfold lifecycleFree
  infer_instance

/-- The callback that does nothing and returns nil. -/
def trivialFn {P : Type} : TxWrap → FnOut P :=
  fun tx => .ret tx none []

/-- A callback that ignores the outer wrapper's derived context and calls
`DBGWithTx` on the original (wrapper-free) outer context instead. -/
def rawCtxNested {P : Type} (dbg2 : DBGetter) : TxWrap → FnOut P :=
  fun tx => asFnOut tx (DBGWithTx none dbg2 (trivialFn (P := P)))

/-- A callback that performs one `Get` whose driver response is
`sql.ErrNoRows` and then returns nil. -/
def getNoRowsFn {P : Type} : TxWrap → FnOut P :=
  fun tx =>
    match TxWrap.Get (α := Val) "" tx (.error .errNoRows) with
    | (_, _, tx', calls) => .ret tx' none calls

/-- A concrete healthy database handle: begin and commit both succeed. -/
def db0 : DB := { beginRes := none, commitRes := none }

/-- A concrete getter that hands out `db0`. -/
def dbg0 : DBGetter := SimpleDBGetter db0

/-! ## Helper lemmas -/

theorem asFnOut_calls {P : Type} (tx : TxWrap) (r : Ctx × TxResult P × List DBCall) :
    (asFnOut tx r).calls = r.2.2 := by
  rcases r with ⟨c, res, calls⟩
  cases c <;> cases res <;> rfl

/-- A `DBGWithTx` call that finds an ambient wrapper adds no driver calls of
its own: its trace is empty (latched short-circuit) or exactly the calls made
by its callback. -/
theorem ambient_trace {P : Type} (tx : TxWrap) (dbg : DBGetter) (fn : TxWrap → FnOut P) :
    (DBGWithTx (some tx) dbg fn).2.2 = []
    ∨ (DBGWithTx (some tx) dbg fn).2.2 = (fn tx).calls := by
  by_cases h : tx.Err.isSome
  · left
    simp [DBGWithTx, h]
  · right
    cases hfn : fn tx <;> simp [DBGWithTx, h, hfn, FnOut.calls]

/-- Nesting through derived contexts preserves lifecycle-freeness of the
callback's trace. -/
theorem nestFn_lifecycleFree {P : Type} (dbg : DBGetter) (leaf : TxWrap → FnOut P)
    (hleaf : ∀ tx, lifecycleFree ((leaf tx).calls)) :
    ∀ (n : Nat) (tx : TxWrap), lifecycleFree ((nestFn dbg n leaf tx).calls) := by
  intro n
  induction n with
  | zero => exact hleaf
  | succ n ih =>
    intro tx
    show lifecycleFree ((asFnOut tx (DBGWithTx tx.Context dbg (nestFn dbg n leaf))).calls)
    rw [asFnOut_calls]
    rcases ambient_trace tx dbg (nestFn dbg n leaf) with h | h
    · rw [show tx.Context = some tx from rfl, h]
      exact ⟨rfl, rfl, rfl⟩
    · rw [show tx.Context = some tx from rfl, h]
      exact ih tx

/-- Trace of a transaction-owning `DBGWithTx` call (acquire and begin both
succeed): acquire/begin prefix, the callback's calls, then either a rollback
or a commit, and finally the release. -/
theorem owning_trace {P : Type} (dbg : DBGetter) (db : DB) (fn : TxWrap → FnOut P)
    (hget : dbg.getDBRes = (some db, none)) (hbegin : db.beginRes = none) :
    (DBGWithTx none dbg fn).2.2
        = [.getDB, .beginTxx] ++ (fn { Err := none }).calls ++ [.rollback, .releaseDB]
    ∨ (DBGWithTx none dbg fn).2.2
        = [.getDB, .beginTxx] ++ (fn { Err := none }).calls ++ [.commit, .releaseDB] := by
  cases hfn : fn { Err := none } with
  | panics tx' p calls =>
    left
    simp [DBGWithTx, hget, hbegin, hfn, FnOut.calls]
  | ret tx' fnErr calls =>
    simp only [DBGWithTx, hget, hbegin, hfn, FnOut.calls]
    split
    · left; rfl
    · right; rfl

end Txwrap

namespace Txwrap

/-- Claim C2: once the wrapper's `Err` field is non-nil, every facade
operation (`Exec`, `NamedExec`, `Get`, `Exists`, `GetString`, `GetBool`,
`GetInt`, `SelectStrings`, `Select`, `SelectMaps`, `GetMap`, `Run`) performs
no underlying database call, mutates no wrapper state, and returns its type's
zero/empty value, and this holds for any sequence of subsequent calls. -/
theorem claim_C2 (tx : TxWrap) (e : DBError) (h : tx.Err = some e) :
    (∀ op : FacadeOp, runOp tx op = (op.zeroOut, tx, []))
    ∧ ∀ ops : List FacadeOp, runOps tx ops = (tx, []) := by
  have hs : tx.Err.isSome = true := by rw [h]; rfl
  have hop : ∀ op : FacadeOp, runOp tx op = (op.zeroOut, tx, []) := by
    intro op
    cases op <;>
      simp [runOp, FacadeOp.zeroOut, TxWrap.NamedExec, TxWrap.Exec, TxWrap.Exists,
        TxWrap.Get, TxWrap.GetString, TxWrap.GetBool, TxWrap.GetInt, TxWrap.SelectStrings,
        TxWrap.Select, TxWrap.SelectMaps, TxWrap.GetMap, TxWrap.Run, hs]
  refine ⟨hop, ?_⟩
  intro ops
  induction ops with
  | nil => rfl
  | cons op rest ih =>
    simp [runOps, hop op, ih]

theorem claim_C2_witness :
    (runOp { Err := some (.driverError 3) } (.exec (none, some (.driverError 9)))
        = (.execOut none, { Err := some (.driverError 3) }, []))
    ∧ runOps { Err := some (.driverError 3) }
          [.getString (.ok "x"), .selectMaps (.ok []), .run (some (.driverError 4), [.stmt])]
        = ({ Err := some (.driverError 3) }, []) :=
  ⟨(claim_C2 { Err := some (.driverError 3) } (.driverError 3) rfl).1 _,
    (claim_C2 { Err := some (.driverError 3) } (.driverError 3) rfl).2 _⟩

/-- Claim C8: if the context passed to `DBGWithTx` already carries a `TxWrap`
whose latched error is non-nil, `DBGWithTx` returns that latched error
immediately: the result does not depend on the callback, the trace is empty
(no `GetDB`, no `BeginTxx`), and the ambient wrapper is unchanged. -/
theorem claim_C8 {P : Type} (tx : TxWrap) (e : DBError) (h : tx.Err = some e)
    (dbg : DBGetter) (fn : TxWrap → FnOut P) :
    DBGWithTx (some tx) dbg fn = (some tx, .ret (some e), []) := by
  simp [DBGWithTx, h]

theorem claim_C8_witness :
    DBGWithTx (P := Nat) (some { Err := some (.driverError 7) }) dbg0 trivialFn
      = (some { Err := some (.driverError 7) }, .ret (some (.driverError 7)), []) :=
  claim_C8 { Err := some (.driverError 7) } (.driverError 7) rfl dbg0 trivialFn

/-- Claim C9 (SetError is modelled from the spec; it is absent from `src/`):
`SetError(err)` latches `err` exactly when no error is latched yet, and
leaves an already-latched error unchanged. -/
theorem claim_C9 (tx : TxWrap) (e : DBError) :
    (tx.Err = none → TxWrap.SetError tx (some e) = { tx with Err := some e })
    ∧ ∀ e0 : DBError, tx.Err = some e0 → TxWrap.SetError tx (some e) = tx := by
  constructor
  · intro h
    simp [TxWrap.SetError, h]
  · intro e0 h
    simp [TxWrap.SetError, h]

theorem claim_C9_witness :
    TxWrap.SetError { Err := none } (some (.driverError 1)) = { Err := some (.driverError 1) }
    ∧ TxWrap.SetError { Err := some (.driverError 2) } (some (.driverError 1))
        = { Err := some (.driverError 2) } :=
  ⟨(claim_C9 { Err := none } (.driverError 1)).1 rfl,
    (claim_C9 { Err := some (.driverError 2) } (.driverError 1)).2 (.driverError 2) rfl⟩

/-- Claim C3: if the callback passed to `DBGWithTx` panics while this call
owns the transaction, `Rollback` is invoked on the transaction before the
panic is re-propagated, the re-propagated panic value is identical to the
original, and the panic is never converted into a normal error return. -/
theorem claim_C3 {P : Type} (dbg : DBGetter) (db : DB) (fn : TxWrap → FnOut P)
    (tx' : TxWrap) (p : P) (calls : List DBCall)
    (hget : dbg.getDBRes = (some db, none)) (hbegin : db.beginRes = none)
    (hfn : fn { Err := none } = .panics tx' p calls) :
    DBGWithTx none dbg fn
      = (none, .panic p, [.getDB, .beginTxx] ++ calls ++ [.rollback, .releaseDB]) := by
  simp [DBGWithTx, hget, hbegin, hfn]

theorem claim_C3_witness :
    DBGWithTx none dbg0 (fun tx => FnOut.panics tx (42 : Nat) [.stmt])
      = (none, .panic 42, [.getDB, .beginTxx] ++ [.stmt] ++ [.rollback, .releaseDB]) :=
  claim_C3 dbg0 db0 _ { Err := none } 42 [.stmt] rfl rfl rfl

/-- The `SelectMaps` row loop on a row list whose first `MapScan` failure sits
after `pre` well-scanned rows: the error latches and the accumulated rows are
discarded, whatever the accumulator held. -/
theorem selectMapsLoop_error (tx : TxWrap) (e : DBError) (post : List (Except DBError RowMap)) :
    ∀ (pre : List RowMap) (acc : Option (List RowMap)),
      selectMapsLoop tx acc (pre.map Except.ok ++ Except.error e :: post)
        = (none, { tx with Err := some e }) := by
  intro pre
  induction pre with
  | nil => intro acc; rfl
  | cons m rest ih =>
    intro acc
    simpa [selectMapsLoop] using ih (goAppend acc m)

/-- Claim C5, counterexample to the claim as stated: with a clear wrapper and
a query that succeeds with zero rows, `SelectMaps` does not return an empty
non-nil slice — it returns the nil slice (`var rtn []map[string]interface{}`
is never appended to). -/
theorem claim_C5_counterexample :
    (TxWrap.SelectMaps { Err := none } (Except.ok ([] : List (Except DBError RowMap)))).1
      ≠ some ([] : List RowMap) := by
  simp [TxWrap.SelectMaps, selectMapsLoop]

/-- Claim C5 as amended: when the wrapper's error is clear and the query
succeeds with zero rows, `SelectMaps` returns the nil slice with no error
latched; when a row-to-map conversion fails mid-iteration, it latches that
error, halts accumulation, and returns nil, discarding all rows gathered so
far. -/
theorem claim_C5 :
    (∀ tx : TxWrap, tx.Err = none →
        TxWrap.SelectMaps tx (.ok []) = (none, tx, [.stmt]))
    ∧ ∀ (tx : TxWrap) (pre : List RowMap) (e : DBError) (post : List (Except DBError RowMap)),
        tx.Err = none →
          TxWrap.SelectMaps tx (.ok (pre.map Except.ok ++ Except.error e :: post))
            = (none, { tx with Err := some e }, [.stmt]) := by
  constructor
  · intro tx h
    simp [TxWrap.SelectMaps, h, selectMapsLoop]
  · intro tx pre e post h
    simp [TxWrap.SelectMaps, h, selectMapsLoop_error]

theorem claim_C5_witness :
    TxWrap.SelectMaps { Err := none } (.ok []) = (none, { Err := none }, [.stmt])
    ∧ TxWrap.SelectMaps { Err := none }
          (.ok ([[("a", "1")]].map Except.ok ++ Except.error (.driverError 5) :: []))
        = (none, { Err := some (.driverError 5) }, [.stmt]) :=
  ⟨claim_C5.1 { Err := none } rfl,
    claim_C5.2 { Err := none } [[("a", "1")]] (.driverError 5) [] rfl⟩

/-- Claim C6: with a clear wrapper, a `Get` whose underlying fetch reports
`sql.ErrNoRows` returns `false`, latches nothing and leaves the destination
untouched; `Get` returns `true` only when the wrapper was clear and a genuine
row was scanned; and a `Get` hitting `sql.ErrNoRows` inside an owning
`DBGWithTx` call does not by itself cause a rollback — the transaction
commits. -/
theorem claim_C6 :
    (∀ tx : TxWrap, tx.Err = none →
        TxWrap.Get (α := Val) "" tx (.error .errNoRows) = (false, "", tx, [.stmt]))
    ∧ (∀ (tx : TxWrap) (dest : Val) (resp : Except DBError Val) (v : Val)
          (tx' : TxWrap) (calls : List DBCall),
        TxWrap.Get dest tx resp = (true, v, tx', calls) → tx.Err = none ∧ resp = .ok v)
    ∧ ∀ (P : Type) (dbg : DBGetter) (db : DB),
        dbg.getDBRes = (some db, none) → db.beginRes = none →
          DBGWithTx none dbg (getNoRowsFn (P := P))
            = (none, .ret db.commitRes, [.getDB, .beginTxx, .stmt, .commit, .releaseDB]) := by
  refine ⟨?_, ?_, ?_⟩
  · intro tx h
    simp [TxWrap.Get, h]
  · intro tx dest resp v tx' calls hg
    by_cases h : tx.Err.isSome
    · simp [TxWrap.Get, h] at hg
    · cases resp with
      | error e =>
        by_cases he : e = DBError.errNoRows <;> simp [TxWrap.Get, h, he] at hg
      | ok w =>
        simp [TxWrap.Get, h] at hg
        exact ⟨Option.not_isSome_iff_eq_none.mp h, by rw [hg.1]⟩
  · intro P dbg db hget hbegin
    simp [DBGWithTx, hget, hbegin, getNoRowsFn, TxWrap.Get]

theorem claim_C6_witness :
    TxWrap.Get (α := Val) "" { Err := none } (.error .errNoRows)
        = (false, "", { Err := none }, [.stmt])
    ∧ DBGWithTx none dbg0 (getNoRowsFn (P := Nat))
        = (none, .ret none, [.getDB, .beginTxx, .stmt, .commit, .releaseDB]) :=
  ⟨claim_C6.1 { Err := none } rfl, claim_C6.2.2 Nat dbg0 db0 rfl rfl⟩

/-- Claim C7: when the callback returns a non-nil error, that error is
latched only if the wrapper's `Err` is still nil.  If an error was latched
earlier during the callback, the earlier error is kept, is the error
`DBGWithTx` returns, and the callback's differing returned error is
discarded (first-write-wins) — shown both for a transaction-owning call and
for an ambient (nested) call where the wrapper state is observable. -/
theorem claim_C7 {P : Type} (dbg : DBGetter) (db : DB) (fn : TxWrap → FnOut P)
    (tx' : TxWrap) (e1 e2 : DBError) (calls : List DBCall)
    (hget : dbg.getDBRes = (some db, none)) (hbegin : db.beginRes = none)
    (hfn : fn { Err := none } = .ret tx' (some e2) calls) :
    (tx'.Err = some e1 →
        (DBGWithTx none dbg fn).2.1 = .ret (some e1)
        ∧ DBGWithTx (some { Err := none }) dbg fn = (some tx', .ret (some e1), calls))
    ∧ (tx'.Err = none →
        (DBGWithTx none dbg fn).2.1 = .ret (some e2)
        ∧ DBGWithTx (some { Err := none }) dbg fn
            = (some { tx' with Err := some e2 }, .ret (some e2), calls)) := by
  constructor
  · intro herr
    constructor
    · simp [DBGWithTx, hget, hbegin, hfn, herr]
    · simp [DBGWithTx, hfn, herr]
  · intro herr
    constructor
    · simp [DBGWithTx, hget, hbegin, hfn, herr]
    · simp [DBGWithTx, hfn, herr]

theorem claim_C7_witness :
    (DBGWithTx (P := Nat) none dbg0
          (fun tx => .ret { tx with Err := some (.driverError 1) } (some (.driverError 2)) [])).2.1
      = .ret (some (.driverError 1)) :=
  ((claim_C7 dbg0 db0 _ { Err := some (.driverError 1) } (.driverError 1) (.driverError 2) []
      rfl rfl rfl).1 rfl).1

/-- Claim C4: for every `DBGWithTx` call in which `GetDB` succeeds with a
non-nil handle, this call performs `ReleaseDB` exactly once on every exit
path (the callback's own driver calls, assumed release-free since they act on
other handles, are accounted separately by `hfn`); a call that reused an
ambient wrapper never calls `ReleaseDB`. -/
theorem claim_C4 {P : Type} (dbg : DBGetter) (db : DB) (fn : TxWrap → FnOut P)
    (hget : dbg.getDBRes = (some db, none))
    (hfn : ∀ tx : TxWrap, ((fn tx).calls).count DBCall.releaseDB = 0) :
    ((DBGWithTx none dbg fn).2.2).count DBCall.releaseDB = 1
    ∧ ∀ tx : TxWrap, ((DBGWithTx (some tx) dbg fn).2.2).count DBCall.releaseDB = 0 := by
  have hpre : ([DBCall.getDB, DBCall.beginTxx] : List DBCall).count DBCall.releaseDB = 0 := by
    decide
  have hrb : ([DBCall.rollback, DBCall.releaseDB] : List DBCall).count DBCall.releaseDB = 1 := by
    decide
  have hcm : ([DBCall.commit, DBCall.releaseDB] : List DBCall).count DBCall.releaseDB = 1 := by
    decide
  constructor
  · cases hbeg : db.beginRes with
    | some e =>
      simp [DBGWithTx, hget, hbeg]
    | none =>
      rcases owning_trace dbg db fn hget hbeg with h | h <;>
        rw [h] <;>
        simp [List.count_append, hpre, hrb, hcm, hfn { Err := none }]
  · intro tx
    rcases ambient_trace tx dbg fn with h | h
    · simp [h]
    · rw [h]
      exact hfn tx

theorem claim_C4_witness :
    ((DBGWithTx (P := Nat) none dbg0 trivialFn).2.2).count DBCall.releaseDB = 1
    ∧ ((DBGWithTx (P := Nat) (some { Err := none }) dbg0 trivialFn).2.2).count
        DBCall.releaseDB = 0 :=
  ⟨(claim_C4 dbg0 db0 trivialFn rfl (fun _ => rfl)).1,
    (claim_C4 dbg0 db0 trivialFn rfl (fun _ => rfl)).2 { Err := none }⟩

/-- Claim C1: across any depth of `DBGWithTx` calls nested through the outer
wrapper's derived context, `BeginTxx` happens exactly once and exactly one of
`Commit`/`Rollback` happens, both performed by the outermost (owning) call;
an inner call that finds an ambient wrapper contributes no driver calls of
its own (its trace is empty or exactly its callback's calls). -/
theorem claim_C1 {P : Type} (n : Nat) (dbg : DBGetter) (db : DB) (leaf : TxWrap → FnOut P)
    (hget : dbg.getDBRes = (some db, none)) (hbegin : db.beginRes = none)
    (hleaf : ∀ tx, lifecycleFree ((leaf tx).calls)) :
    (((DBGWithTx none dbg (nestFn dbg n leaf)).2.2).count DBCall.beginTxx = 1
      ∧ ((DBGWithTx none dbg (nestFn dbg n leaf)).2.2).count DBCall.commit
          + ((DBGWithTx none dbg (nestFn dbg n leaf)).2.2).count DBCall.rollback = 1)
    ∧ ∀ (tx : TxWrap) (g : TxWrap → FnOut P),
        (DBGWithTx tx.Context dbg g).2.2 = []
        ∨ (DBGWithTx tx.Context dbg g).2.2 = (g tx).calls := by
  obtain ⟨hb, hc, hr⟩ := nestFn_lifecycleFree dbg leaf hleaf n { Err := none }
  constructor
  · rcases owning_trace dbg db (nestFn dbg n leaf) hget hbegin with h | h <;>
      rw [h] <;>
      constructor <;>
      simp [List.count_append, hb, hc, hr, List.count_cons, List.count_nil]
  · intro tx g
    exact ambient_trace tx dbg g

theorem claim_C1_witness :
    ((DBGWithTx (P := Nat) none dbg0 (nestFn dbg0 2 trivialFn)).2.2).count DBCall.beginTxx = 1
    ∧ ((DBGWithTx (P := Nat) none dbg0 (nestFn dbg0 2 trivialFn)).2.2).count DBCall.commit
        + ((DBGWithTx (P := Nat) none dbg0 (nestFn dbg0 2 trivialFn)).2.2).count
            DBCall.rollback = 1 :=
  (claim_C1 2 dbg0 db0 trivialFn rfl rfl (fun _ => ⟨rfl, rfl, rfl⟩)).1

/-- Claim C10: `IsTxWrapContext` is true exactly for contexts produced by a
wrapper's `Context` method (and false for a wrapper-free context), and a
nested `DBGWithTx` invoked with the original outer context instead of the
outer wrapper's `Context()` finds no ambient wrapper and opens a second,
independent transaction: the combined trace shows two `BeginTxx` and two
`Commit` calls. -/
theorem claim_C10 :
    (∀ c : Ctx, IsTxWrapContext c = true ↔ ∃ tx : TxWrap, c = tx.Context)
    ∧ IsTxWrapContext none = false
    ∧ ∀ (P : Type) (dbg1 dbg2 : DBGetter) (db1 db2 : DB),
        dbg1.getDBRes = (some db1, none) → dbg2.getDBRes = (some db2, none) →
          db1.beginRes = none → db2.beginRes = none →
            db1.commitRes = none → db2.commitRes = none →
              (DBGWithTx none dbg1 (rawCtxNested (P := P) dbg2)).2.2
                = [.getDB, .beginTxx, .getDB, .beginTxx, .commit, .releaseDB,
                    .commit, .releaseDB] := by
  refine ⟨?_, rfl, ?_⟩
  · intro c
    cases c with
    | none =>
      simp only [IsTxWrapContext, Option.isSome_none, TxWrap.Context]
      constructor
      · intro h
        exact absurd h (by simp)
      · rintro ⟨tx, h⟩
        exact absurd h (by simp)
    | some tx =>
      simp only [IsTxWrapContext, Option.isSome_some, TxWrap.Context, true_iff]
      exact ⟨tx, rfl⟩
  · intro P dbg1 dbg2 db1 db2 hg1 hg2 hb1 hb2 hc1 hc2
    simp [DBGWithTx, rawCtxNested, trivialFn, asFnOut, FnOut.calls,
      hg1, hg2, hb1, hb2, hc1, hc2]

theorem claim_C10_witness :
    (DBGWithTx none dbg0 (rawCtxNested (P := Nat) dbg0)).2.2
      = [.getDB, .beginTxx, .getDB, .beginTxx, .commit, .releaseDB, .commit, .releaseDB] :=
  claim_C10.2.2 Nat dbg0 dbg0 db0 db0 rfl rfl rfl rfl rfl rfl

end Txwrap
